import Mathlib

/-!
Verification development for the `routeplan-rk` repository.

Part 1 (`Dash` namespace) is a shallow embedding of `src/streamlit_app.py`,
the daily-summary dashboard: tables are lists of rows (a row is a lookup
function from column names to optional cells, `none` standing for a missing
value / NaN), and every pipeline stage that can hit a missing column is a
function into `Except Err`.  Floating-point values only matter through their
`NaN` / `±inf` / finite distinction, so they are embedded as the four-case
type `FV` over exact rationals; `pd.to_datetime(..., errors:coerce).dt.normalize()`
is embedded as flooring a numeric timestamp to a day number (non-numeric
cells coerce to NaT, i.e. `none`), which is faithful for every property
proved here since none depends on string-to-date parsing.

Part 2 (`Route` namespace) models the routing engine that the specification
describes; that engine's code is not present under `src/` (only the
reporting dashboard is), so those definitions are modelled from the spec,
each marked `Modelled from the spec:` in its doc comment.
-/

namespace Dash

/-- A non-null pandas cell: either a string or a (rational) number. -/
inductive PCell where
  | s (v : String)
  | q (v : ℚ)
deriving DecidableEq

/-- A pandas cell; `none` is NaN / NaT / missing. -/
abbrev Cell := Option PCell

/-- A float-like value: NaN, plus/minus infinity, or a finite rational. -/
inductive FV where
  | nan
  | pinf
  | ninf
  | fin (v : ℚ)
deriving DecidableEq

/-- Division with IEEE-style special cases, as produced by pandas column
division: `x/0` is `±inf` for nonzero `x`, `0/0` is NaN, NaN propagates. -/
def FV.div : FV → FV → FV
  | .nan, _ => .nan
  | _, .nan => .nan
  | .pinf, .pinf => .nan
  | .pinf, .ninf => .nan
  | .ninf, .pinf => .nan
  | .ninf, .ninf => .nan
  | .pinf, .fin b => if b < 0 then .ninf else .pinf
  | .ninf, .fin b => if b < 0 then .pinf else .ninf
  | .fin _, .pinf => .fin 0
  | .fin _, .ninf => .fin 0
  | .fin a, .fin b =>
    if b = 0 then (if a = 0 then .nan else if 0 < a then .pinf else .ninf)
    else .fin (a / b)

/-- Pandas `.replace([np.inf, -np.inf], 0)` on one value. -/
def FV.replaceInf0 : FV → FV
  | .pinf => .fin 0
  | .ninf => .fin 0
  | v => v

/-- Pandas `.fillna(0)` on one value. -/
def FV.fillna0 : FV → FV
  | .nan => .fin 0
  | v => v

/-- A value is finite when it is neither NaN nor infinite. -/
def FV.isFinite : FV → Bool
  | .fin _ => true
  | _ => false

/-- A dataframe: its column names and its rows, a row being a lookup
function from column name to cell (meaningful on the listed columns). -/
structure Table where
  cols : List String
  rows : List (String → Cell)

/-- Python's case-insensitive substring test (`needle.lower() in hay.lower()`):
for a nonempty needle, `splitOn` yields more than one part iff it occurs. -/
def containsCI (hay needle : String) : Bool :=
  (hay.toLower.splitOn needle.toLower).length != 1

/-- Pandas `.str.lower()` on one cell: strings are lowered, non-strings give NaN. -/
def cellStrLower : Cell → Option String
  | some (.s v) => some v.toLower
  | _ => none

/-- Line 40: `fillna('Unknown').astype(str).str.strip().str.upper()`. -/
def cleanSa : Cell → String
  | none => ("UNKNOWN")
  | some (.s v) => v.trim.toUpper
  | some (.q v) => (toString v).trim.toUpper

/-- Line 41: `pd.to_datetime(..., errors:coerce).dt.normalize()`, embedded
as flooring a numeric timestamp to a day number; non-numeric gives NaT. -/
def normDate : Cell → Option ℤ
  | some (.q v) => some ⌊v⌋
  | _ => none

/-- Lines 44-46: `pd.to_numeric(..., errors:coerce).fillna(0)`. -/
def toNum : Cell → ℚ
  | some (.q v) => v
  | _ => 0

/-- Line 49: `order_status.str.lower().isin(['complete','delivered'])`. -/
def statusDelivered (c : Cell) : Bool :=
  match cellStrLower c with
  | some v => v == ("complete") || v == ("delivered")
  | none => false

/-- Lines 54-55: `.str.contains(pat, case=False, na=False)` for one
alternative of the pattern; NaN gives `false`. -/
def cellContainsCI (c : Cell) (pat : String) : Bool :=
  match c with
  | some (.s v) => containsCI v pat
  | _ => false

/-- One cleaned order row, holding exactly the columns and flags the
aggregation (lines 58-74) reads. -/
structure ORow where
  saName : String
  date : Option ℤ
  origQty : ℚ
  finalQty : ℚ
  memberId : Cell
  orderId : Cell
  status : Cell
  isDelivered : Bool
  isSub : Bool
  isTopup : Bool
  isMilk : Bool
  isNonMilk : Bool
  isOos : Bool
  isCxCancel : Bool
deriving DecidableEq

/-- Lines 40-55: per-row cleaning and flag computation of `df_ord`. -/
def cleanRow (r : String → Cell) : ORow :=
  { saName := cleanSa (r ("sa_name"))
    date := normDate (r ("delivery_date"))
    origQty := toNum (r ("OriginalQty"))
    finalQty := toNum (r ("finalquantity"))
    memberId := r ("member_id")
    orderId := r ("order_id")
    status := r ("order_status")
    isDelivered := statusDelivered (r ("order_status"))
    isSub := cellStrLower (r ("Type")) == some ("subscription")
    isTopup := cellStrLower (r ("Type")) == some ("topup")
    isMilk := cellStrLower (r ("Milk / NM")) == some ("milk")
    isNonMilk := cellStrLower (r ("Milk / NM")) == some ("non-milk")
    isOos := cellContainsCI (r ("cancellation_reason")) ("OOS")
      || cellContainsCI (r ("cancellation_reason")) ("stock")
    isCxCancel := cellContainsCI (r ("cancellation_reason")) ("customer") }

/-- The `df_ord` columns read before any group result is produced: the
cleaning columns of lines 40-55 in access order, then the columns the
`groupby(...).agg` of lines 58-74 reads.  A missing one raises (KeyError
in pandas) before any group is processed. -/
def requiredOrdCols : List String :=
  [("sa_name"), ("delivery_date"), ("OriginalQty"), ("finalquantity"),
   ("OriginalOrderValue"), ("FinalOrderValue"), ("order_status"), ("Type"),
   ("Milk / NM"), ("cancellation_reason"), ("member_id"), ("order_id")]

/-- Errors of the run: the order-report file being absent (line 36), and a
missing required column (pandas raises KeyError; the spec's taxonomy calls
this class of failure a ValidationError). -/
inductive Err where
  | orderFileMissing
  | validationError (col : String)
deriving DecidableEq

/-- One row of the core aggregation result (lines 58-74). -/
structure SRow where
  date : ℤ
  saName : String
  totalCustomers : ℕ
  totalOrders : ℕ
  ordersDelivered : ℕ
  subOrders : ℕ
  topupOrders : ℕ
  oosCancellations : ℕ
  cxCancellations : ℕ
  orderedQty : ℚ
  deliveredQty : ℚ
  milkQtyOrdered : ℚ
  milkQtyDelivered : ℚ
  nmilkQtyOrdered : ℚ
  nmilkQtyDelivered : ℚ
  subQty : ℚ
deriving DecidableEq

/-- The aggregation of lines 58-74 on one group `g` with key `k`:
`nunique` counts distinct non-null values, boolean sums count rows with the
flag set, and the masked quantity sums multiply the mask into the
quantity. -/
def aggGroup (k : ℤ × String) (g : List ORow) : SRow :=
  { date := k.1
    saName := k.2
    totalCustomers := (g.filterMap (fun r => r.memberId)).dedup.length
    totalOrders := (g.filterMap (fun r => r.orderId)).dedup.length
    ordersDelivered := g.countP (fun r => r.isDelivered)
    subOrders := g.countP (fun r => r.isSub)
    topupOrders := g.countP (fun r => r.isTopup)
    oosCancellations := g.countP (fun r => r.isOos)
    cxCancellations := g.countP (fun r => r.isCxCancel)
    orderedQty := (g.map (fun r => r.origQty)).sum
    deliveredQty := (g.map (fun r => r.finalQty)).sum
    milkQtyOrdered := (g.map (fun r => if r.isMilk then r.origQty else 0)).sum
    milkQtyDelivered := (g.map (fun r => if r.isMilk then r.finalQty else 0)).sum
    nmilkQtyOrdered := (g.map (fun r => if r.isNonMilk then r.origQty else 0)).sum
    nmilkQtyDelivered := (g.map (fun r => if r.isNonMilk then r.finalQty else 0)).sum
    subQty := (g.map (fun r => if r.isSub then r.origQty else 0)).sum }

/-- Rows paired with their group key; rows whose normalized delivery date
is NaT carry no key and are dropped by the groupby, as pandas does. -/
def keyed (rows : List ORow) : List ((ℤ × String) × ORow) :=
  rows.filterMap (fun r => (r.date).map (fun d => ((d, r.saName), r)))

/-- The distinct group keys of `groupby(['delivery_date','sa_name'])`. -/
def groupKeys (rows : List ORow) : List (ℤ × String) :=
  ((keyed rows).map Prod.fst).dedup

/-- The grouped aggregation of lines 58-74 over the cleaned rows.  (Row
order of the result is not modelled; no property below depends on it.) -/
def summaryOf (rows : List ORow) : List SRow :=
  (groupKeys rows).map (fun k =>
    aggGroup k (((keyed rows).filter (fun p => decide (p.1 = k))).map Prod.snd))

/-- Lines 40-74: clean `df_ord` and aggregate it.  All columns of
`requiredOrdCols` are read before any group result exists, so a missing one
aborts here, before any group is processed. -/
def summaryStage (t : Table) : Except Err (List SRow) :=
  match requiredOrdCols.find? (fun c => !t.cols.contains c) with
  | some c => .error (.validationError c)
  | none => .ok (summaryOf (t.rows.map cleanRow))

/-- One cleaned LMD (logistics) row, lines 78-79: `order_delivered_time`
is embedded as an optional numeric timestamp (days; `none` is NaT). -/
structure LRow where
  saName : String
  ts : Option ℚ
  routeId : Cell
  weight : ℚ
deriving DecidableEq

/-- The `df_lmd` columns read by lines 78-93. -/
def requiredLmdCols : List String :=
  [("sa_name"), ("order_delivered_time"), ("route_id"), ("weight")]

/-- Lines 78-79 per-row cleaning of `df_lmd`. -/
def cleanLmdRow (r : String → Cell) : LRow :=
  { saName := cleanSa (r ("sa_name"))
    ts := match r ("order_delivered_time") with
      | some (.q v) => some v
      | _ => none
    routeId := r ("route_id")
    weight := toNum (r ("weight")) }

/-- Lines 78-79: clean `df_lmd`, aborting on a missing column. -/
def cleanLmd (t : Table) : Except Err (List LRow) :=
  match requiredLmdCols.find? (fun c => !t.cols.contains c) with
  | some c => .error (.validationError c)
  | none => .ok (t.rows.map cleanLmdRow)

/-- Python `datetime.strptime(time_str, ...).time()` with the `%H:%M` format,
as a fraction of a day. -/
def parseHM (s : String) : ℚ :=
  match s.splitOn (":") with
  | [h, m] => (((h.toNat?).getD 0 : ℚ) * 60 + ((m.toNat?).getD 0 : ℚ)) / 1440
  | _ => 0

/-- Lines 82-85 `check_otd`: the mean, over the group, of the indicator
that the delivery time-of-day is before the limit (an unparseable time
counts as not-before, as `NaT` does). -/
def checkOtd (g : List LRow) (timeStr : String) : ℚ :=
  (g.countP (fun r =>
    match r.ts with
    | some v => decide (v - (⌊v⌋ : ℚ) < parseHM timeStr)
    | none => false) : ℚ) / (g.length : ℚ)

/-- One row of `lmd_agg` (lines 87-93). -/
structure LRowAgg where
  dt : ℤ
  saName : String
  otd700 : ℚ
  otd730 : ℚ
  otd800 : ℚ
  totalRoutes : ℕ
  totalWeight : ℚ
deriving DecidableEq

/-- Rows of `df_lmd` paired with their `(dt, sa_name)` group key; NaT
delivery timestamps carry no key and are dropped by the groupby. -/
def lmdKeyed (rows : List LRow) : List ((ℤ × String) × LRow) :=
  rows.filterMap (fun r => (r.ts).map (fun v => ((⌊v⌋, r.saName), r)))

/-- Lines 87-93: the `lmd_agg` groupby over `(dt, sa_name)`. -/
def lmdAgg (rows : List LRow) : List LRowAgg :=
  (((lmdKeyed rows).map Prod.fst).dedup).map (fun k =>
    let g := ((lmdKeyed rows).filter (fun p => decide (p.1 = k))).map Prod.snd
    { dt := k.1
      saName := k.2
      otd700 := checkOtd g ("07:00")
      otd730 := checkOtd g ("07:30")
      otd800 := checkOtd g ("08:00")
      totalRoutes := (g.filterMap (fun r => r.routeId)).dedup.length
      totalWeight := (g.map (fun r => r.weight)).sum })

/-- One cleaned SKU-sales row (lines 98-99). -/
structure KRow where
  saName : String
  date : Option ℤ
  sales : ℚ
deriving DecidableEq

/-- The `df_sku` columns read by lines 98-100. -/
def requiredSkuCols : List String :=
  [("sa_name"), ("delivery_date"), ("total_sales")]

/-- Lines 98-99 per-row cleaning of `df_sku`. -/
def cleanSkuRow (r : String → Cell) : KRow :=
  { saName := cleanSa (r ("sa_name"))
    date := normDate (r ("delivery_date"))
    sales := toNum (r ("total_sales")) }

/-- Lines 98-99: clean `df_sku`, aborting on a missing column. -/
def cleanSku (t : Table) : Except Err (List KRow) :=
  match requiredSkuCols.find? (fun c => !t.cols.contains c) with
  | some c => .error (.validationError c)
  | none => .ok (t.rows.map cleanSkuRow)

/-- Line 100: `sales_agg`, total sales per `(delivery_date, sa_name)`. -/
def salesAgg (rows : List KRow) : List ((ℤ × String) × ℚ) :=
  let kr := rows.filterMap (fun r => (r.date).map (fun d => ((d, r.saName), r.sales)))
  ((kr.map Prod.fst).dedup).map (fun k =>
    (k, ((kr.filter (fun p => decide (p.1 = k))).map Prod.snd).sum))

/-- One summary row after the left merges of lines 94 and 101: `none` in
`lmdMatch` / `salesMatch` is an unmatched left-merge row, whose merged
cells are NaN. -/
structure MRow where
  base : SRow
  lmdMatch : Option LRowAgg
  salesMatch : Option ℚ
deriving DecidableEq

/-- The merged summary dataframe; the flags record whether the LMD and
sales columns exist at all (they are only created when the corresponding
file was loaded, lines 77 and 97). -/
structure SumTable where
  hasLmd : Bool
  hasSales : Bool
  rows : List MRow
deriving DecidableEq

/-- Lines 77-93: the optional LMD aggregate — `none` when the LMD file was
absent (so its columns are never created), an error when it is present but
misses a column. -/
def lmdPart : Option Table → Except Err (Option (List LRowAgg))
  | none => .ok none
  | some t =>
    match cleanLmd t with
    | .error e => .error e
    | .ok lr => .ok (some (lmdAgg lr))

/-- Lines 97-100: the optional sales aggregate, as `lmdPart`. -/
def skuPart : Option Table → Except Err (Option (List ((ℤ × String) × ℚ)))
  | none => .ok none
  | some t =>
    match cleanSku t with
    | .error e => .error e
    | .ok kr => .ok (some (salesAgg kr))

/-- Lines 77-101: conditionally aggregate and left-merge the LMD and SKU
tables onto the core summary. -/
def mergeStage (srows : List SRow) (lmdT skuT : Option Table) : Except Err SumTable :=
  match lmdPart lmdT with
  | .error e => .error e
  | .ok lmdA =>
    match skuPart skuT with
    | .error e => .error e
    | .ok salesA =>
      .ok { hasLmd := lmdA.isSome
            hasSales := salesA.isSome
            rows := srows.map (fun r =>
              { base := r
                lmdMatch := match lmdA with
                  | none => none
                  | some la => la.find? (fun a => decide (a.dt = r.date ∧ a.saName = r.saName))
                salesMatch := match salesA with
                  | none => none
                  | some sa => (sa.find? (fun p => decide (p.1 = (r.date, r.saName)))).map Prod.snd }) }

/-- Interpret `none` (column NaN after an unmatched left merge) as a float
value. -/
def fvOfOpt : Option ℚ → FV
  | none => .nan
  | some v => .fin v

/-- One summary row after the derived columns of lines 104-113. -/
structure RRow where
  base : SRow
  lmdMatch : Option LRowAgg
  totalSales : Option ℚ
  ordersUndelivered : ℤ
  abv : FV
  abq : FV
  frMilk : FV
  frNonMilk : FV
  overallFr : FV
  weightPerRoute : Option FV
  weightPerOrder : Option FV
deriving DecidableEq

/-- Lines 104-113 on one row: the derived ratio columns.  `abv` and `abq`
get `.replace([inf,-inf],0).fillna(0)`; the fill rates only `.fillna(0)`;
the per-route/per-order weights (computed only when the LMD columns exist,
line 111) get neither. -/
def ratioRow (hasLmd : Bool) (m : MRow) : RRow :=
  let b := m.base
  { base := b
    lmdMatch := m.lmdMatch
    totalSales := m.salesMatch
    ordersUndelivered := (b.totalOrders : ℤ) - (b.ordersDelivered : ℤ)
    abv := ((fvOfOpt m.salesMatch).div (.fin (b.ordersDelivered : ℚ))).replaceInf0.fillna0
    abq := ((FV.fin b.deliveredQty).div (.fin (b.ordersDelivered : ℚ))).replaceInf0.fillna0
    frMilk := ((FV.fin b.milkQtyDelivered).div (.fin b.milkQtyOrdered)).fillna0
    frNonMilk := ((FV.fin b.nmilkQtyDelivered).div (.fin b.nmilkQtyOrdered)).fillna0
    overallFr := ((FV.fin b.deliveredQty).div (.fin b.orderedQty)).fillna0
    weightPerRoute :=
      if hasLmd then
        some ((fvOfOpt (m.lmdMatch.map (fun a => a.totalWeight))).div
          (fvOfOpt (m.lmdMatch.map (fun a => (a.totalRoutes : ℚ)))))
      else none
    weightPerOrder :=
      if hasLmd then
        some ((fvOfOpt (m.lmdMatch.map (fun a => a.totalWeight))).div
          (.fin (b.ordersDelivered : ℚ)))
      else none }

/-- Lines 104-113 on the merged summary.  Line 105 reads
the `total_sales` column of `summary` unconditionally; when the SKU file
was absent that column does not exist, and pandas raises KeyError there. -/
def ratioStage (s : SumTable) : Except Err (Bool × List RRow) :=
  if s.hasSales then .ok (s.hasLmd, s.rows.map (ratioRow s.hasLmd))
  else .error (.validationError ("total_sales"))

/-- A cell of the displayed dataframe. -/
inductive FCell where
  | s (v : String)
  | i (v : ℤ)
  | f (v : FV)
deriving DecidableEq

/-- A cell is null exactly when it is a float NaN. -/
def FCell.isNull : FCell → Bool
  | .f .nan => true
  | _ => false

/-- Line 132 `.fillna(0)` on one cell. -/
def fillCell : FCell → FCell
  | .f .nan => .f (.fin 0)
  | c => c

/-- Lines 116-128: the `target_cols` mapping, in dict order. -/
def targetPairs : List (String × String) :=
  [(("delivery_date"), ("Date")),
   (("sa_name"), ("Store Name")),
   (("total_customers"), ("Total Ordered Customers (Unique)")),
   (("total_orders"), ("Total Orders")),
   (("orders_delivered"), ("Orders Delivered")),
   (("sub_orders"), ("Subscription Orders")),
   (("topup_orders"), ("Top-up Orders")),
   (("orders_undelivered"), ("Orders Undelivered")),
   (("cx_cancellations"), ("Cancelled Orders by Customer")),
   (("oos_cancellations"), ("Undelivered Orders Due to OOS")),
   (("ordered_qty"), ("Total Ordered Quantity")),
   (("sub_qty"), ("Subscription Quantity")),
   (("milk_qty_ordered"), ("Milk Qty (Ord)")),
   (("milk_qty_delivered"), ("Milk Qty (Del)")),
   (("nmilk_qty_ordered"), ("NM Qty (Ord)")),
   (("nmilk_qty_delivered"), ("NM Qty (Del)")),
   (("otd_700"), ("OTD 7:00 AM")),
   (("otd_730"), ("OTD 7:30 AM")),
   (("otd_800"), ("OTD 8:00 AM")),
   (("abv"), ("ABV")),
   (("abq"), ("ABQ")),
   (("overall_fr"), ("Overall Fill Rate")),
   (("total_sales"), ("Sale(₹)")),
   (("total_routes"), ("Routes")),
   (("weight_per_route"), ("Wt/Route"))]

/-- The columns of the computed summary dataframe just before line 131, in
pandas column order: the core aggregation columns, then the merged LMD
columns (when the LMD file was loaded), then `total_sales` (when the SKU
file was loaded), then the derived columns of lines 104-113. -/
def sumCols (hasLmd hasSales : Bool) : List String :=
  [("delivery_date"), ("sa_name"), ("total_customers"), ("total_orders"),
   ("orders_delivered"), ("sub_orders"), ("topup_orders"),
   ("oos_cancellations"), ("cx_cancellations"), ("ordered_qty"),
   ("delivered_qty"), ("milk_qty_ordered"), ("milk_qty_delivered"),
   ("nmilk_qty_ordered"), ("nmilk_qty_delivered"), ("sub_qty")]
  ++ (if hasLmd then
        [("dt"), ("otd_700"), ("otd_730"), ("otd_800"), ("total_routes"),
         ("total_weight")]
      else [])
  ++ (if hasSales then [("total_sales")] else [])
  ++ [("orders_undelivered"), ("abv"), ("abq"), ("fr_milk"),
      ("fr_non_milk"), ("overall_fr")]
  ++ (if hasLmd then [("weight_per_route"), ("weight_per_order")] else [])

/-- The cell of one derived-summary row under a summary column name.
Count columns are integers; columns that came through a left merge are
floats that are NaN on unmatched rows. -/
def cellOf (k : String) (r : RRow) : FCell :=
  if k = ("delivery_date") then .i r.base.date
  else if k = ("sa_name") then .s r.base.saName
  else if k = ("total_customers") then .i (r.base.totalCustomers : ℤ)
  else if k = ("total_orders") then .i (r.base.totalOrders : ℤ)
  else if k = ("orders_delivered") then .i (r.base.ordersDelivered : ℤ)
  else if k = ("sub_orders") then .i (r.base.subOrders : ℤ)
  else if k = ("topup_orders") then .i (r.base.topupOrders : ℤ)
  else if k = ("orders_undelivered") then .i r.ordersUndelivered
  else if k = ("cx_cancellations") then .i (r.base.cxCancellations : ℤ)
  else if k = ("oos_cancellations") then .i (r.base.oosCancellations : ℤ)
  else if k = ("ordered_qty") then .f (.fin r.base.orderedQty)
  else if k = ("sub_qty") then .f (.fin r.base.subQty)
  else if k = ("milk_qty_ordered") then .f (.fin r.base.milkQtyOrdered)
  else if k = ("milk_qty_delivered") then .f (.fin r.base.milkQtyDelivered)
  else if k = ("nmilk_qty_ordered") then .f (.fin r.base.nmilkQtyOrdered)
  else if k = ("nmilk_qty_delivered") then .f (.fin r.base.nmilkQtyDelivered)
  else if k = ("otd_700") then .f (fvOfOpt (r.lmdMatch.map (fun a => a.otd700)))
  else if k = ("otd_730") then .f (fvOfOpt (r.lmdMatch.map (fun a => a.otd730)))
  else if k = ("otd_800") then .f (fvOfOpt (r.lmdMatch.map (fun a => a.otd800)))
  else if k = ("abv") then .f r.abv
  else if k = ("abq") then .f r.abq
  else if k = ("overall_fr") then .f r.overallFr
  else if k = ("total_sales") then .f (fvOfOpt r.totalSales)
  else if k = ("total_routes") then .f (fvOfOpt (r.lmdMatch.map (fun a => (a.totalRoutes : ℚ))))
  else if k = ("weight_per_route") then .f ((r.weightPerRoute).getD .nan)
  else .f .nan

/-- The displayed dataframe: columns and cell rows. -/
structure FTable where
  cols : List String
  rows : List (List FCell)
deriving DecidableEq

/-- Lines 130-132: keep the target columns that exist in the summary (in
the target list's order), rename them, and `fillna(0)`. -/
def finalStage (hasLmd : Bool) (rows : List RRow) : FTable :=
  let sel := targetPairs.filter (fun p => (sumCols hasLmd true).contains p.1)
  { cols := sel.map Prod.snd
    rows := rows.map (fun r => sel.map (fun p => fillCell (cellOf p.1 r))) }

/-- Lines 28-139: the whole generation run over the three loaded files
(`None` = file absent). -/
def run (ordT skuT lmdT : Option Table) : Except Err FTable :=
  match ordT with
  | none => .error .orderFileMissing
  | some t =>
    match summaryStage t with
    | .error e => .error e
    | .ok srows =>
      match mergeStage srows lmdT skuT with
      | .error e => .error e
      | .ok merged =>
        match ratioStage merged with
        | .error e => .error e
        | .ok rl => .ok (finalStage rl.1 rl.2)

/-- A file on disk, already parsed into a table. -/
structure FileEntry where
  name : String
  content : Table

/-- Lines 11-25 `load_file`: the first directory entry whose name contains
the keyword case-insensitively and ends in `.csv`/`.xlsx`; `None` when
there is no match.  (A file that matches but fails to parse also yields
`None`; parsing is outside this model, so entries are pre-parsed.) -/
def load_file (files : List FileEntry) (keyword : String) : Option Table :=
  ((files.filter (fun f =>
    containsCI f.name keyword && (f.name.endsWith (".csv") || f.name.endsWith (".xlsx")))).head?).map
    (fun f => f.content)

/-- Lines 31-33 and 28-139: load the three files by keyword and run. -/
def runFiles (files : List FileEntry) : Except Err FTable :=
  run (load_file files ("order_Report_SA_ID"))
    (load_file files ("order_sku_sales_bb2"))
    (load_file files ("iot-rate-card-iot_orderwise"))

/-- A row is a cancelled order iff its lowered status equals `cancelled`. -/
def isCancelledRow (r : String → Cell) : Bool :=
  cellStrLower (r ("order_status")) == some ("cancelled")

/-- Removing the cancelled rows of a table (what the claim under test says
happens before grouping; the source has no such step). -/
def dropCancelled (t : Table) : Table :=
  { cols := t.cols, rows := t.rows.filter (fun r => !isCancelledRow r) }

end Dash

namespace Route

/-- Modelled from the spec: an order (§3 data model) — unique identifier,
planar position, demand weight, active/cancelled status, and the grouping
keys (city, store, service area).  The routing engine's code is not under
`src/`, so the whole `Route` namespace is modelled from the spec. -/
structure Order where
  oid : ℕ
  x : ℤ
  y : ℤ
  weight : ℚ
  cancelled : Bool
  city : String
  store : String
  area : String
deriving DecidableEq

/-- Modelled from the spec: squared planar distance between positions. -/
def sqDist (p q : ℤ × ℤ) : ℤ :=
  (p.1 - q.1) ^ 2 + (p.2 - q.2) ^ 2

/-- Modelled from the spec (§4.2): a planar distance scaled and rounded to
a non-negative integer cost unit. -/
def scaledDist (p q : ℤ × ℤ) : ℕ :=
  Nat.sqrt ((100 * sqDist p q).toNat)

/-- Modelled from the spec (§4.2 DistanceMatrixBuilder): the pairwise cost
matrix over the depot-plus-stops position list. -/
def costMatrix (ps : List (ℤ × ℤ)) : List (List ℕ) :=
  (List.range ps.length).map (fun i =>
    (List.range ps.length).map (fun j =>
      scaledDist (ps.getD i (0, 0)) (ps.getD j (0, 0))))

/-- Modelled from the spec (§4.3): the default fleet-size slack. -/
def defaultSlack : ℕ := 2

/-- Modelled from the spec (§4.3 FleetSizeEstimator): vehicle-count upper
bound `ceil(total_demand / capacity) + slack`. -/
def fleetSize (totalDemand capacity : ℚ) (slack : ℕ) : ℤ :=
  ⌈totalDemand / capacity⌉ + slack

/-- The total demand weight carried by one route. -/
def load (r : List Order) : ℚ :=
  (r.map (fun o => o.weight)).sum

/-- Modelled from the spec (§4.4): place an order on the first vehicle
slot whose remaining capacity can take it; `none` when no slot can.  The
capacity check is the hard constraint: an order is appended to a route
only when the route's load plus the order's weight stays within
capacity. -/
def place (cap : ℚ) (o : Order) : List (List Order) → Option (List (List Order))
  | [] => none
  | r :: rs =>
    if load r + o.weight ≤ cap then some ((r ++ [o]) :: rs)
    else (place cap o rs).map (fun rs2 => r :: rs2)

/-- Modelled from the spec (§4.4, §9): the deterministic construction
pass of the stub RouteSolver — orders are assigned one by one, each to a
capacity-feasible slot; the first failure makes the group infeasible. -/
def solveAux (cap : ℚ) : List Order → List (List Order) → Option (List (List Order))
  | [], rs => some rs
  | o :: os, rs => (place cap o rs).bind (solveAux cap os)

/-- Modelled from the spec (§4.4 RouteSolver): solve one group over a
fleet of `slots` initially empty vehicles; `none` is
SolverInfeasibleResult. -/
def solve (cap : ℚ) (slots : ℕ) (os : List Order) : Option (List (List Order)) :=
  solveAux cap os (List.replicate slots [])

/-- The grouping key of an order: (city, store, service area). -/
def gkey (o : Order) : String × String × String :=
  (o.city, o.store, o.area)

/-- Modelled from the spec (§4 GroupPartitioner): split the order list
into maximal groups sharing a grouping key, in first-appearance order. -/
def partitionBy : List Order → List (List Order)
  | [] => []
  | o :: rest =>
    (o :: rest.filter (fun p => decide (gkey p = gkey o))) ::
      partitionBy (rest.filter (fun p => !decide (gkey p = gkey o)))
termination_by l => l.length
decreasing_by
  simp only [List.length_cons]
  exact Nat.lt_succ_of_le (List.length_filter_le _ _)

/-- The active (non-cancelled) orders, in input order. -/
def activeOf (os : List Order) : List Order :=
  os.filter (fun o => !o.cancelled)

/-- Modelled from the spec (§4.3): the fleet slots allotted to a group. -/
def slotsFor (cap : ℚ) (g : List Order) : ℕ :=
  (fleetSize (load g) cap defaultSlack).toNat

/-- Modelled from the spec (§4.4): solve every group; any infeasible group
makes the whole batch return `none`. -/
def solveGroups (cap : ℚ) : List (List Order) → Option (List (List (List Order)))
  | [] => some []
  | g :: gs =>
    (solve cap (slotsFor cap g) g).bind (fun rs =>
      (solveGroups cap gs).map (fun rest => rs :: rest))

/-- A node of a vehicle path: the depot, or a customer stop. -/
inductive Node where
  | depot
  | stop (o : Order)
deriving DecidableEq

/-- Modelled from the spec (§4.4): each vehicle's visiting order forms a
path starting and ending at the depot. -/
def pathOf (r : List Order) : List Node :=
  Node.depot :: r.map Node.stop ++ [Node.depot]

/-- The customer stops of a path, with every depot node skipped. -/
def stopsOf (p : List Node) : List Order :=
  p.filterMap (fun n =>
    match n with
    | .depot => none
    | .stop o => some o)

/-- Modelled from the spec (§4.5 RouteExtractor): walk one vehicle's path,
skip the depot, and number the remaining stops 1-based in visiting
order. -/
def extractVehicle (p : List Node) : List (ℕ × Order) :=
  (stopsOf p).enumFrom 1

/-- Modelled from the spec (§4.5): extract every used vehicle of a group,
tagging rows with the vehicle number; an unused (empty) slot produces no
rows. -/
def extractGroupAux (v : ℕ) : List (List Order) → List (ℕ × ℕ × Order)
  | [] => []
  | r :: rs =>
    if r.isEmpty then extractGroupAux v rs
    else (extractVehicle (pathOf r)).map (fun so => (v, so.1, so.2))
      ++ extractGroupAux (v + 1) rs

/-- Modelled from the spec (§4.5): the (vehicle, sequence, order) rows of
one solved group, vehicles numbered from 1. -/
def extractGroup (rs : List (List Order)) : List (ℕ × ℕ × Order) :=
  extractGroupAux 1 rs

/-- One final assignment row (§3): order identifier with its group key,
vehicle number and 1-based stop sequence. -/
structure Arow where
  key : String × String × String
  vehicle : ℕ
  seq : ℕ
  oid : ℕ
deriving DecidableEq

/-- Modelled from the spec (§2 data flow): filter out cancelled orders,
partition the active ones into groups, solve every group, and extract the
assignment rows; `none` when some group is infeasible. -/
def runPipeline (cap : ℚ) (os : List Order) : Option (List Arow) :=
  (solveGroups cap (partitionBy (activeOf os))).map (fun sols =>
    sols.flatMap (fun rs =>
      (extractGroup rs).map (fun t =>
        { key := gkey t.2.2, vehicle := t.1, seq := t.2.1, oid := t.2.2.oid })))

end Route

deriving instance DecidableEq for Except

namespace Dash

/-- A concrete row as a lookup over an association list. -/
def rowOf (l : List (String × PCell)) : String → Cell :=
  fun c => (l.find? (fun p => p.1 == c)).map Prod.snd

/-- A delivered order row for day 100 at store S1. -/
def rowA : String → Cell :=
  rowOf
    [(("sa_name"), .s ("S1")), (("delivery_date"), .q 100),
     (("OriginalQty"), .q 2), (("finalquantity"), .q 2),
     (("OriginalOrderValue"), .q 50), (("FinalOrderValue"), .q 50),
     (("order_status"), .s ("delivered")), (("Type"), .s ("subscription")),
     (("Milk / NM"), .s ("milk")), (("cancellation_reason"), .s ("")),
     (("member_id"), .s ("m1")), (("order_id"), .s ("o1"))]

/-- A cancelled order row for day 100 at store S1. -/
def rowB : String → Cell :=
  rowOf
    [(("sa_name"), .s ("S1")), (("delivery_date"), .q 100),
     (("OriginalQty"), .q 3), (("finalquantity"), .q 0),
     (("OriginalOrderValue"), .q 70), (("FinalOrderValue"), .q 0),
     (("order_status"), .s ("cancelled")), (("Type"), .s ("topup")),
     (("Milk / NM"), .s ("non-milk")),
     (("cancellation_reason"), .s ("customer request")),
     (("member_id"), .s ("m2")), (("order_id"), .s ("o2"))]

/-- A well-formed order table with one delivered and one cancelled row. -/
def t0 : Table :=
  { cols := requiredOrdCols, rows := [rowA, rowB] }

/-- A one-row SKU-sales row matching `t0`'s group. -/
def skuRow : String → Cell :=
  rowOf
    [(("sa_name"), .s ("S1")), (("delivery_date"), .q 100),
     (("total_sales"), .q 10)]

/-- A well-formed SKU-sales table. -/
def tSku : Table :=
  { cols := requiredSkuCols, rows := [skuRow] }

/-- An order table with the order-status column missing. -/
def tMiss : Table :=
  { cols := [("sa_name"), ("delivery_date")], rows := [] }

/-- The single summary row of `t0` (both rows share day 100, store S1;
the cancelled row contributes to total orders, top-ups, the non-milk
quantities and the customer-cancellation count). -/
def srow0 : SRow :=
  { date := 100, saName := ("S1"), totalCustomers := 2, totalOrders := 2,
    ordersDelivered := 1, subOrders := 1, topupOrders := 1,
    oosCancellations := 0, cxCancellations := 1, orderedQty := 5,
    deliveredQty := 2, milkQtyOrdered := 2, milkQtyDelivered := 2,
    nmilkQtyOrdered := 3, nmilkQtyDelivered := 0, subQty := 2 }

/-- The summary computed on `t0`. -/
def srows0 : List SRow :=
  [srow0]

/-- The merged summary of `srows0` with `tSku` and no LMD file. -/
def merged0 : SumTable :=
  { hasLmd := false, hasSales := true,
    rows := [{ base := srow0, lmdMatch := none, salesMatch := some 10 }] }

/-- The derived rows of `merged0`. -/
def rrows0 : List RRow :=
  [{ base := srow0, lmdMatch := none, totalSales := some 10,
     ordersUndelivered := 1, abv := .fin 10, abq := .fin 2, frMilk := .fin 1,
     frNonMilk := .fin 0, overallFr := .fin (mkRat 2 5),
     weightPerRoute := none, weightPerOrder := none }]

/-- The final output of a run on `t0` and `tSku` with no LMD file. -/
def out0 : FTable :=
  finalStage false rrows0

/-- A concrete one-row core summary. -/
def sRow1 : SRow :=
  { date := 100, saName := ("S1"), totalCustomers := 1, totalOrders := 2,
    ordersDelivered := 2, subOrders := 0, topupOrders := 0,
    oosCancellations := 0, cxCancellations := 0, orderedQty := 3,
    deliveredQty := 4, milkQtyOrdered := 0, milkQtyDelivered := 0,
    nmilkQtyOrdered := 0, nmilkQtyDelivered := 0, subQty := 0 }

/-- A concrete merged summary with sales present and no LMD columns. -/
def sumT1 : SumTable :=
  { hasLmd := false, hasSales := true,
    rows := [{ base := sRow1, lmdMatch := none, salesMatch := some 10 }] }

/-- The derived rows computed on `sumT1`. -/
def rrows1 : List RRow :=
  ((ratioStage sumT1).toOption.getD (true, [])).2

/-- A placeholder derived row, used only as a `getD` default. -/
def dummyRRow : RRow :=
  { base := sRow1, lmdMatch := none, totalSales := none,
    ordersUndelivered := 0, abv := .nan, abq := .nan, frMilk := .nan,
    frNonMilk := .nan, overallFr := .nan, weightPerRoute := none,
    weightPerOrder := none }

/-- The first derived row of `rrows1`. -/
def rrow1 : RRow :=
  rrows1.getD 0 dummyRRow

end Dash

namespace Route

/-- A concrete active order. -/
def w1 : Order :=
  { oid := 1, x := 0, y := 0, weight := 1, cancelled := false,
    city := ("C1"), store := ("S1"), area := ("A1") }

/-- A concrete cancelled order in the same group. -/
def w2 : Order :=
  { oid := 2, x := 1, y := 1, weight := 1, cancelled := true,
    city := ("C1"), store := ("S1"), area := ("A1") }

/-- The assignment rows the pipeline produces on `[w1, w2]`. -/
def wrows : List Arow :=
  [{ key := ((("C1")), (("S1")), (("A1"))), vehicle := 1, seq := 1, oid := 1 }]

end Route

theorem getD_map_range {α : Type} (f : ℕ → α) (n i : ℕ) (d : α) (h : i < n) :
    ((List.range n).map f).getD i d = f i := by
  rw [List.getD_eq_getElem?_getD, List.getElem?_map, List.getElem?_range h]
  rfl

theorem sqDist_comm (p q : ℤ × ℤ) : Route.sqDist p q = Route.sqDist q p := by
  unfold Route.sqDist
  ring

theorem sqDist_self (p : ℤ × ℤ) : Route.sqDist p p = 0 := by
  unfold Route.sqDist
  ring

theorem scaledDist_comm (p q : ℤ × ℤ) :
    Route.scaledDist p q = Route.scaledDist q p := by
  unfold Route.scaledDist
  rw [sqDist_comm]

theorem scaledDist_self (p : ℤ × ℤ) : Route.scaledDist p p = 0 := by
  unfold Route.scaledDist
  rw [sqDist_self]
  simp

theorem costMatrix_entry (ps : List (ℤ × ℤ)) (i j : ℕ)
    (hi : i < ps.length) (hj : j < ps.length) :
    ((Route.costMatrix ps).getD i []).getD j 0
      = Route.scaledDist (ps.getD i (0, 0)) (ps.getD j (0, 0))  := by
  unfold Route.costMatrix
  rw [getD_map_range _ _ _ _ hi, getD_map_range _ _ _ _ hj]

/-- C7: for every depot-plus-orders coordinate list, the distance matrix is
an (N+1)×(N+1) matrix of (non-negative, by the entry type `ℕ`) integers
that is symmetric and has a zero diagonal. -/
theorem c7_cost_matrix (depot : ℤ × ℤ) (stops : List (ℤ × ℤ)) (i j : ℕ)
    (hi : i < stops.length + 1) (hj : j < stops.length + 1) :
    (Route.costMatrix (depot :: stops)).length = stops.length + 1
    ∧ (∀ row ∈ Route.costMatrix (depot :: stops), row.length = stops.length + 1)
    ∧ ((Route.costMatrix (depot :: stops)).getD i []).getD j 0
        = ((Route.costMatrix (depot :: stops)).getD j []).getD i 0
    ∧ ((Route.costMatrix (depot :: stops)).getD i []).getD i 0 = 0 := by
  have hlen : (depot :: stops).length = stops.length + 1 := by simp
  refine ⟨by simp [Route.costMatrix], ?_, ?_, ?_⟩
  · intro row hrow
    unfold Route.costMatrix at hrow
    obtain ⟨k, _, rfl⟩ := List.mem_map.mp hrow
    simp
  · rw [costMatrix_entry _ i j (by omega) (by omega),
      costMatrix_entry _ j i (by omega) (by omega), scaledDist_comm]
  · rw [costMatrix_entry _ i i (by omega) (by omega), scaledDist_self]

/-- C7 witness: the matrix contract instantiated on a concrete depot and
two stops, at entry (0, 1). -/
theorem c7_cost_matrix_witness :
    (Route.costMatrix ((0, 0) :: [(1, 2), (3, 4)])).length = 3
    ∧ (∀ row ∈ Route.costMatrix ((0, 0) :: [(1, 2), (3, 4)]), row.length = 3)
    ∧ ((Route.costMatrix ((0, 0) :: [(1, 2), (3, 4)])).getD 0 []).getD 1 0
        = ((Route.costMatrix ((0, 0) :: [(1, 2), (3, 4)])).getD 1 []).getD 0 0
    ∧ ((Route.costMatrix ((0, 0) :: [(1, 2), (3, 4)])).getD 0 []).getD 0 0 = 0 :=
  c7_cost_matrix (0, 0) [(1, 2), (3, 4)] 0 1 (by norm_num) (by norm_num)

/-- C6: for every group and capacity, the fleet-size estimate is exactly
`ceil(total demand / capacity) + slack` with the default slack 2, hence at
least `ceil(total demand / capacity)`. -/
theorem c6_fleet_size (g : List Route.Order) (cap : ℚ) :
    Route.fleetSize (Route.load g) cap Route.defaultSlack
        = ⌈Route.load g / cap⌉ + 2
    ∧ ⌈Route.load g / cap⌉ ≤ Route.fleetSize (Route.load g) cap Route.defaultSlack := by
  unfold Route.fleetSize Route.defaultSlack
  constructor
  · norm_num
  · omega

theorem load_append_single (r : List Route.Order) (o : Route.Order) :
    Route.load (r ++ [o]) = Route.load r + o.weight := by
  simp [Route.load]

theorem place_load (cap : ℚ) (o : Route.Order) :
    ∀ rs rs', (∀ r ∈ rs, Route.load r ≤ cap) →
      Route.place cap o rs = some rs' → ∀ r ∈ rs', Route.load r ≤ cap := by
  intro rs
  induction rs with
  | nil => simp [Route.place]
  | cons r0 rest ih =>
    intro rs' hinv hp r hr
    unfold Route.place at hp
    split at hp
    · rename_i hle
      obtain rfl : (r0 ++ [o]) :: rest = rs' := by injection hp
      rcases List.mem_cons.mp hr with rfl | hmem
      · rw [load_append_single]
        exact hle
      · exact hinv r (List.mem_cons_of_mem _ hmem)
    · obtain ⟨rs2, hp2, rfl⟩ := Option.map_eq_some'.mp hp
      rcases List.mem_cons.mp hr with rfl | hmem
      · exact hinv r (List.mem_cons_self _ _)
      · exact ih rs2 (fun x hx => hinv x (List.mem_cons_of_mem _ hx)) hp2 r hmem

theorem solveAux_load (cap : ℚ) :
    ∀ os rs rs', (∀ r ∈ rs, Route.load r ≤ cap) →
      Route.solveAux cap os rs = some rs' → ∀ r ∈ rs', Route.load r ≤ cap := by
  intro os
  induction os with
  | nil =>
    intro rs rs' hinv h
    obtain rfl : rs = rs' := by injection h
    exact hinv
  | cons o os ih =>
    intro rs rs' hinv h
    unfold Route.solveAux at h
    obtain ⟨rs1, hp, hrest⟩ := Option.bind_eq_some.mp h
    exact ih rs1 rs' (place_load cap o rs rs1 hinv hp) hrest

/-- C3: every route of any solver output satisfies the capacity bound —
for a non-negative configured capacity, whenever the solver returns routes,
the total assigned weight of each route is at most the capacity. -/
theorem c3_capacity_never_exceeded (cap : ℚ) (hcap : 0 ≤ cap) (slots : ℕ)
    (os : List Route.Order) (rs : List (List Route.Order))
    (h : Route.solve cap slots os = some rs) :
    ∀ r ∈ rs, Route.load r ≤ cap := by
  refine solveAux_load cap os (List.replicate slots []) rs ?_ h
  intro r hr
  rw [List.eq_of_mem_replicate hr]
  simpa [Route.load] using hcap

/-- C3 witness: a concrete feasible solve on two orders with capacity 40,
instantiated at the first returned route. -/
theorem c3_capacity_never_exceeded_witness :
    Route.load [Route.w1, Route.w2] ≤ (40 : ℚ) :=
  c3_capacity_never_exceeded 40 (by norm_num) 2 [Route.w1, Route.w2]
    [[Route.w1, Route.w2], []] (by with_unfolding_all decide)
    [Route.w1, Route.w2] (List.mem_cons_self _ _)

theorem stopsOf_pathOf (r : List Route.Order) :
    Route.stopsOf (Route.pathOf r) = r := by
  simp only [Route.stopsOf, Route.pathOf, List.filterMap_cons, List.filterMap_append,
    List.filterMap_map]
  simp [Function.comp_def]

theorem extractGroupAux_skips_empty :
    ∀ (rs : List (List Route.Order)) (v : ℕ),
      Route.extractGroupAux v rs
        = Route.extractGroupAux v (rs.filter (fun r => !r.isEmpty)) := by
  intro rs
  induction rs with
  | nil => intro v; rfl
  | cons r rest ih =>
    intro v
    rw [List.filter_cons]
    by_cases he : r.isEmpty
    · rw [if_neg (by simp [he])]
      simp only [Route.extractGroupAux]
      rw [if_pos he]
      exact ih v
    · have he' : r.isEmpty = false := by simpa using he
      rw [if_pos (by simp [he'])]
      simp only [Route.extractGroupAux]
      rw [if_neg (by simp [he']), if_neg (by simp [he'])]
      rw [ih (v + 1)]

/-- C5: in every solved group, each vehicle's extracted stop rows carry
the sequence numbers `1..k` exactly (1-based, increasing, gap-free), the
stops themselves in visiting order with the depot receiving no number, and
unused (empty) vehicle slots contribute no output rows. -/
theorem c5_sequence_numbers (rs : List (List Route.Order)) :
    (∀ r ∈ rs,
      (Route.extractVehicle (Route.pathOf r)).map Prod.fst
          = List.range' 1 r.length
      ∧ (Route.extractVehicle (Route.pathOf r)).map Prod.snd = r)
    ∧ Route.extractGroup rs
        = Route.extractGroup (rs.filter (fun r => !r.isEmpty)) := by
  constructor
  · intro r _
    unfold Route.extractVehicle
    rw [stopsOf_pathOf]
    exact ⟨List.enumFrom_map_fst 1 r, List.enumFrom_map_snd 1 r⟩
  · exact extractGroupAux_skips_empty rs 1

theorem flatten_replicate_nil {α : Type} (n : ℕ) :
    (List.replicate n ([] : List α)).flatten = [] := by
  induction n with
  | zero => rfl
  | succ n ih => simp [List.replicate_succ, ih]

theorem place_perm (cap : ℚ) (o : Route.Order) :
    ∀ rs rs', Route.place cap o rs = some rs' →
      rs'.flatten.Perm (o :: rs.flatten) := by
  intro rs
  induction rs with
  | nil => simp [Route.place]
  | cons r0 rest ih =>
    intro rs' hp
    unfold Route.place at hp
    split at hp
    · obtain rfl : (r0 ++ [o]) :: rest = rs' := by injection hp
      simp only [List.flatten_cons, List.append_assoc, List.singleton_append]
      exact List.perm_middle
    · obtain ⟨rs2, hp2, rfl⟩ := Option.map_eq_some'.mp hp
      simp only [List.flatten_cons]
      exact ((ih rs2 hp2).append_left r0).trans List.perm_middle

theorem solveAux_perm (cap : ℚ) :
    ∀ (os : List Route.Order) rs rs',
      Route.solveAux cap os rs = some rs' →
      rs'.flatten.Perm (os ++ rs.flatten) := by
  intro os
  induction os with
  | nil =>
    intro rs rs' h
    obtain rfl : rs = rs' := by injection h
    simp
  | cons o os ih =>
    intro rs rs' h
    unfold Route.solveAux at h
    obtain ⟨rs1, hp, hrest⟩ := Option.bind_eq_some.mp h
    exact (ih rs1 rs' hrest).trans
      (((place_perm cap o rs rs1 hp).append_left os).trans List.perm_middle)

theorem solve_perm (cap : ℚ) (slots : ℕ) (os : List Route.Order)
    (rs : List (List Route.Order)) (h : Route.solve cap slots os = some rs) :
    rs.flatten.Perm os := by
  have := solveAux_perm cap os (List.replicate slots []) rs h
  rwa [flatten_replicate_nil, List.append_nil] at this

theorem partitionBy_flatten_perm :
    ∀ os : List Route.Order, (Route.partitionBy os).flatten.Perm os := by
  intro os
  induction os using Route.partitionBy.induct with
  | case1 =>
    unfold Route.partitionBy
    rfl
  | case2 o rest ih =>
    unfold Route.partitionBy
    simp only [List.flatten_cons, List.cons_append]
    refine List.Perm.cons o ?_
    exact (ih.append_left (rest.filter (fun p => decide (Route.gkey p = Route.gkey o)))).trans
      (List.filter_append_perm _ rest)

theorem extractGroupAux_orders :
    ∀ (rs : List (List Route.Order)) (v : ℕ),
      (Route.extractGroupAux v rs).map (fun t => t.2.2) = rs.flatten := by
  intro rs
  induction rs with
  | nil => intro v; rfl
  | cons r rest ih =>
    intro v
    unfold Route.extractGroupAux
    by_cases he : r.isEmpty
    · rw [if_pos he, List.isEmpty_iff.mp he]
      rw [List.flatten_cons, List.nil_append]
      exact ih v
    · rw [if_neg he, List.flatten_cons, List.map_append, List.map_map, ih (v + 1)]
      congr 1
      have : (Route.extractVehicle (Route.pathOf r)).map Prod.snd = r := by
        unfold Route.extractVehicle
        rw [stopsOf_pathOf]
        exact List.enumFrom_map_snd 1 r
      calc (Route.extractVehicle (Route.pathOf r)).map
            ((fun t : ℕ × ℕ × Route.Order => t.2.2) ∘ (fun so => (v, so.1, so.2)))
          = (Route.extractVehicle (Route.pathOf r)).map Prod.snd := by
            simp [Function.comp_def]
        _ = r := this

theorem solveGroups_perm (cap : ℚ) :
    ∀ (gs : List (List Route.Order)) sols,
      Route.solveGroups cap gs = some sols →
      (sols.flatMap List.flatten).Perm gs.flatten := by
  intro gs
  induction gs with
  | nil =>
    intro sols h
    obtain rfl : ([] : List (List (List Route.Order))) = sols := by injection h
    rfl
  | cons g rest ih =>
    intro sols h
    unfold Route.solveGroups at h
    obtain ⟨rs, hs, hmap⟩ := Option.bind_eq_some.mp h
    obtain ⟨rest', hrest, rfl⟩ := Option.map_eq_some'.mp hmap
    rw [List.flatMap_cons, List.flatten_cons]
    exact (solve_perm cap _ g rs hs).append (ih rest' hrest)

theorem runPipeline_oid_perm (cap : ℚ) (os : List Route.Order)
    (rows : List Route.Arow) (h : Route.runPipeline cap os = some rows) :
    (rows.map (fun a => a.oid)).Perm
      ((Route.activeOf os).map (fun o => o.oid)) := by
  obtain ⟨sols, hsols, rfl⟩ := Option.map_eq_some'.mp h
  have step1 :
      ((sols.flatMap (fun rs => (Route.extractGroup rs).map (fun t =>
        ({ key := Route.gkey t.2.2, vehicle := t.1, seq := t.2.1,
           oid := t.2.2.oid } : Route.Arow)))).map (fun a => a.oid))
      = sols.flatMap (fun rs => rs.flatten.map (fun o => o.oid)) := by
    rw [List.map_flatMap]
    refine List.flatMap_congr ?_
    intro rs _
    rw [List.map_map]
    have : (Route.extractGroup rs).map (fun t => t.2.2) = rs.flatten :=
      extractGroupAux_orders rs 1
    calc (Route.extractGroup rs).map ((fun a : Route.Arow => a.oid) ∘ (fun t =>
          ({ key := Route.gkey t.2.2, vehicle := t.1, seq := t.2.1,
             oid := t.2.2.oid } : Route.Arow)))
        = ((Route.extractGroup rs).map (fun t => t.2.2)).map (fun o => o.oid) := by
          rw [List.map_map]
          rfl
      _ = rs.flatten.map (fun o => o.oid) := by rw [this]
  rw [step1]
  have step2 : sols.flatMap (fun rs => rs.flatten.map (fun o => o.oid))
      = (sols.flatMap List.flatten).map (fun o => o.oid) := by
    rw [List.map_flatMap]
  rw [step2]
  exact ((solveGroups_perm cap _ sols hsols).map _).trans
    ((partitionBy_flatten_perm (Route.activeOf os)).map _)

/-- C4: for every feasible run (the pipeline returned assignment rows) on
orders with pairwise-distinct identifiers, every active order's identifier
appears in exactly one assignment row, and a cancelled order's identifier
appears in none. -/
theorem c4_each_active_order_once (cap : ℚ) (os : List Route.Order)
    (rows : List Route.Arow)
    (hids : (os.map (fun o => o.oid)).Nodup)
    (h : Route.runPipeline cap os = some rows) :
    (∀ o ∈ os, o.cancelled = false →
      (rows.map (fun a => a.oid)).count o.oid = 1)
    ∧ (∀ o ∈ os, o.cancelled = true →
      (rows.map (fun a => a.oid)).count o.oid = 0) := by
  have hperm := runPipeline_oid_perm cap os rows h
  have hsub : ((Route.activeOf os).map (fun o => o.oid)).Sublist
      (os.map (fun o => o.oid)) :=
    (List.filter_sublist os).map _
  have hnodup : ((Route.activeOf os).map (fun o => o.oid)).Nodup :=
    List.Nodup.sublist hsub hids
  constructor
  · intro o ho hc
    rw [hperm.count_eq]
    have hmem : o ∈ Route.activeOf os :=
      List.mem_filter.mpr ⟨ho, by simp [hc]⟩
    exact List.count_eq_one_of_mem hnodup (List.mem_map_of_mem _ hmem)
  · intro o ho hc
    rw [hperm.count_eq]
    rw [List.count_eq_zero]
    intro hmem
    obtain ⟨o', ho'act, hoid⟩ := List.mem_map.mp hmem
    have ho'os : o' ∈ os := List.mem_of_mem_filter ho'act
    have : o' = o := List.inj_on_of_nodup_map hids ho'os ho hoid
    subst this
    have : (!o'.cancelled) = true := (List.mem_filter.mp ho'act).2
    rw [hc] at this
    simp at this

/-- C4 witness: on a concrete two-order input (one active, one cancelled)
the single produced row carries the active identifier once and the
cancelled identifier never. -/
theorem c4_each_active_order_once_witness :
    ((Route.wrows.map (fun a => a.oid)).count 1 = 1)
    ∧ ((Route.wrows.map (fun a => a.oid)).count 2 = 0) := by
  have h := c4_each_active_order_once 40 [Route.w1, Route.w2] Route.wrows
    (by with_unfolding_all decide) (by with_unfolding_all decide)
  exact ⟨h.1 Route.w1 (List.mem_cons_self _ _) rfl,
    h.2 Route.w2 (List.mem_cons_of_mem _ (List.mem_cons_self _ _)) rfl⟩

/-- C1 counterexample: the dashboard's aggregation is NOT computed only
over non-cancelled rows — on the concrete table `t0` (one delivered and
one cancelled row) the summary differs from the summary of the table with
cancelled rows removed, so no cancelled-row filter precedes the
grouping. -/
theorem c1_counterexample :
    Dash.summaryStage Dash.t0 ≠ Dash.summaryStage (Dash.dropCancelled Dash.t0) := by
  with_unfolding_all decide

/-- C1 amended: rows with `order_status == "cancelled"` are not removed
before grouping; the groupby of lines 58-74 runs over all cleaned rows, so
every input row with a parseable delivery date — cancelled or not —
contributes its `(delivery_date, sa_name)` group to the summary. -/
theorem c1_amended_cancelled_rows_grouped (t : Dash.Table)
    (srows : List Dash.SRow) (h : Dash.summaryStage t = .ok srows)
    (r : String → Dash.Cell) (hr : r ∈ t.rows) (d : ℤ)
    (hd : Dash.normDate (r ("delivery_date")) = some d) :
    ∃ s ∈ srows, s.date = d ∧ s.saName = Dash.cleanSa (r ("sa_name")) := by
  unfold Dash.summaryStage at h
  split at h
  · exact absurd h (by simp)
  · have hs : Dash.summaryOf (t.rows.map Dash.cleanRow) = srows := by
      injection h
    subst hs
    have hdate : (Dash.cleanRow r).date = some d := hd
    have hkeyed : ((d, (Dash.cleanRow r).saName), Dash.cleanRow r)
        ∈ Dash.keyed (t.rows.map Dash.cleanRow) := by
      refine List.mem_filterMap.mpr ⟨Dash.cleanRow r, List.mem_map_of_mem _ hr, ?_⟩
      rw [hdate]
      rfl
    have hkey : (d, (Dash.cleanRow r).saName)
        ∈ Dash.groupKeys (t.rows.map Dash.cleanRow) := by
      unfold Dash.groupKeys
      exact List.mem_dedup.mpr (List.mem_map_of_mem Prod.fst hkeyed)
    exact ⟨Dash.aggGroup (d, (Dash.cleanRow r).saName)
      (((Dash.keyed (t.rows.map Dash.cleanRow)).filter
        (fun p => decide (p.1 = (d, (Dash.cleanRow r).saName)))).map Prod.snd),
      List.mem_map_of_mem _ hkey, rfl, rfl⟩

/-- C1 amended witness: on the concrete table `t0`, the cancelled row
`rowB` still contributes its group (day 100, store S1) to the summary. -/
theorem c1_amended_cancelled_rows_grouped_witness :
    ∃ s ∈ Dash.srows0, s.date = 100 ∧ s.saName = Dash.cleanSa (Dash.rowB ("sa_name")) :=
  c1_amended_cancelled_rows_grouped Dash.t0 Dash.srows0
    (by with_unfolding_all decide) Dash.rowB
    (List.mem_cons_of_mem _ (List.mem_cons_self _ _)) 100
    (by with_unfolding_all decide)

/-- C2: for every order table missing one of the columns the dashboard
reads before any group result is produced (the order-status column among
them), the whole run aborts with a column error (pandas KeyError, the
spec's ValidationError) and produces no output. -/
theorem c2_missing_column_aborts (t : Dash.Table) (c : String)
    (hc : c ∈ Dash.requiredOrdCols) (hmiss : c ∉ t.cols)
    (sku lmd : Option Dash.Table) :
    ∃ c', Dash.run (some t) sku lmd = .error (.validationError c') := by
  have hpc : (fun c => !t.cols.contains c) c = true := by
    simp only [Bool.not_eq_true']
    simpa using hmiss
  have hsome : (Dash.requiredOrdCols.find? (fun c => !t.cols.contains c)).isSome :=
    List.find?_isSome.mpr ⟨c, hc, hpc⟩
  obtain ⟨c', hc'⟩ := Option.isSome_iff_exists.mp hsome
  have hsum : Dash.summaryStage t = .error (.validationError c') := by
    unfold Dash.summaryStage
    rw [hc']
  refine ⟨c', ?_⟩
  unfold Dash.run
  simp only [hsum]

/-- C2 witness: a table missing the order-status column makes the run
abort with a column error. -/
theorem c2_missing_column_aborts_witness :
    ∃ c', Dash.run (some Dash.tMiss) none none = .error (.validationError c') :=
  c2_missing_column_aborts Dash.tMiss ("order_status") (by decide)
    (by decide) none none

theorem fv_replace_fill_finite (v : Dash.FV) :
    ((v.replaceInf0).fillna0).isFinite = true := by
  cases v <;> rfl

/-- C9: on every summary the ratio stage accepts, the derived `abv` and
`abq` columns are finite in every row: the division's infinities are
replaced by 0 and its NaNs (zero delivered orders, missing sales) are
filled with 0. -/
theorem c9_ratios_finite (s : Dash.SumTable) (hl : Bool)
    (rows : List Dash.RRow) (h : Dash.ratioStage s = .ok (hl, rows)) :
    ∀ r ∈ rows, r.abv.isFinite = true ∧ r.abq.isFinite = true := by
  unfold Dash.ratioStage at h
  split at h
  · have h2 : (s.hasLmd, s.rows.map (Dash.ratioRow s.hasLmd)) = (hl, rows) := by
      injection h
    have hrows : rows = s.rows.map (Dash.ratioRow s.hasLmd) :=
      (congrArg Prod.snd h2).symm
    intro r hr
    rw [hrows] at hr
    obtain ⟨m, _, rfl⟩ := List.mem_map.mp hr
    exact ⟨fv_replace_fill_finite _, fv_replace_fill_finite _⟩
  · exact absurd h (by simp)

/-- C9 witness: on the concrete merged summary `sumT1`, the first derived
row has finite `abv` and `abq`. -/
theorem c9_ratios_finite_witness :
    Dash.rrow1.abv.isFinite = true ∧ Dash.rrow1.abq.isFinite = true :=
  c9_ratios_finite Dash.sumT1 false Dash.rrows1
    (by with_unfolding_all decide) Dash.rrow1 (by with_unfolding_all decide)

theorem fillCell_not_null (c : Dash.FCell) : (Dash.fillCell c).isNull = false := by
  cases c with
  | s v => rfl
  | i v => rfl
  | f v => cases v <;> rfl

theorem lmdPart_isSome (lmdT : Option Dash.Table)
    (lmdA : Option (List Dash.LRowAgg)) (h : Dash.lmdPart lmdT = .ok lmdA) :
    lmdA.isSome = lmdT.isSome := by
  cases lmdT with
  | none =>
    have h2 : (none : Option (List Dash.LRowAgg)) = lmdA := by injection h
    rw [← h2]
    rfl
  | some tl =>
    simp only [Dash.lmdPart] at h
    split at h
    · exact absurd h (by simp)
    · rename_i lr _
      have h2 : some (Dash.lmdAgg lr) = lmdA := by injection h
      rw [← h2]
      rfl

/-- C8: every successful run's displayed table has exactly the target
columns that exist in the computed summary, in the target list's order and
under their renamed labels, and (after the final `fillna(0)`) none of its
cells is null. -/
theorem c8_final_table (ordT skuT lmdT : Option Dash.Table) (out : Dash.FTable)
    (h : Dash.run ordT skuT lmdT = .ok out) :
    out.cols = (Dash.targetPairs.filter
      (fun p => (Dash.sumCols lmdT.isSome true).contains p.1)).map Prod.snd
    ∧ ∀ row ∈ out.rows, ∀ cell ∈ row, cell.isNull = false := by
  cases ordT with
  | none => exact absurd h (by simp [Dash.run])
  | some t =>
    simp only [Dash.run] at h
    cases hsum : Dash.summaryStage t with
    | error e => simp only [hsum] at h; exact absurd h (by simp)
    | ok srows =>
      simp only [hsum] at h
      cases hm : Dash.mergeStage srows lmdT skuT with
      | error e => simp only [hm] at h; exact absurd h (by simp)
      | ok merged =>
        simp only [hm] at h
        cases hr : Dash.ratioStage merged with
        | error e => simp only [hr] at h; exact absurd h (by simp)
        | ok rl =>
          simp only [hr] at h
          have hout : Dash.finalStage rl.1 rl.2 = out := by injection h
          have hrl : rl.1 = merged.hasLmd := by
            unfold Dash.ratioStage at hr
            split at hr
            · have h2 : (merged.hasLmd,
                  merged.rows.map (Dash.ratioRow merged.hasLmd)) = rl := by
                injection hr
              rw [← h2]
            · exact absurd hr (by simp)
          have hlmd : merged.hasLmd = lmdT.isSome := by
            unfold Dash.mergeStage at hm
            cases hlp : Dash.lmdPart lmdT with
            | error e => simp only [hlp] at hm; exact absurd hm (by simp)
            | ok lmdA =>
              simp only [hlp] at hm
              cases hsp : Dash.skuPart skuT with
              | error e => simp only [hsp] at hm; exact absurd hm (by simp)
              | ok salesA =>
                simp only [hsp, Except.ok.injEq] at hm
                rw [← hm]
                exact lmdPart_isSome lmdT lmdA hlp
          subst hout
          constructor
          · rw [hrl, hlmd]
            rfl
          · intro row hrow cell hcell
            simp only [Dash.finalStage] at hrow
            obtain ⟨r, _, rfl⟩ := List.mem_map.mp hrow
            obtain ⟨p, _, rfl⟩ := List.mem_map.mp hcell
            exact fillCell_not_null _

/-- C8 witness: the column and no-null contract instantiated on the
concrete successful run behind `outDef` (order and SKU files present, LMD
file absent), at the run's first cell. -/
theorem c8_final_table_witness :
    Dash.out0.cols = (Dash.targetPairs.filter
      (fun p => (Dash.sumCols false true).contains p.1)).map Prod.snd
    ∧ ((Dash.out0.rows.getD 0 []).getD 0 (Dash.FCell.s (""))).isNull = false := by
  have h1 : Dash.summaryStage Dash.t0 = .ok Dash.srows0 := by
    with_unfolding_all decide
  have h2 : Dash.mergeStage Dash.srows0 none (some Dash.tSku) = .ok Dash.merged0 := by
    with_unfolding_all decide
  have h3 : Dash.ratioStage Dash.merged0 = .ok (false, Dash.rrows0) := by
    with_unfolding_all decide
  have hrun : Dash.run (some Dash.t0) (some Dash.tSku) none = .ok Dash.out0 := by
    simp only [Dash.run, h1, h2, h3]
    rfl
  have h := c8_final_table (some Dash.t0) (some Dash.tSku) none Dash.out0 hrun
  refine ⟨h.1, ?_⟩
  exact h.2 (Dash.out0.rows.getD 0 []) (by with_unfolding_all decide)
    ((Dash.out0.rows.getD 0 []).getD 0 (Dash.FCell.s ("")))
    (by with_unfolding_all decide)

/-- C10 (code bug): with a well-formed order table but no SKU-sales file,
the run does not produce an output that merely omits the sales-derived
columns — line 105 reads the `total_sales` column of `summary`
unconditionally, the
column does not exist, and the run dies with a KeyError (modelled as the
column error below) despite the code's own missing-column guards
elsewhere (lines 111 and 130-131). -/
theorem c10_missing_sku_file_crashes :
    Dash.run (some Dash.t0) none none
      = .error (.validationError ("total_sales")) := by
  with_unfolding_all decide

/-- C5 witness: the sequencing contract instantiated on a concrete group
with one used vehicle and one unused slot. -/
theorem c5_sequence_numbers_witness :
    ((Route.extractVehicle (Route.pathOf [Route.w1])).map Prod.fst
        = List.range' 1 1
      ∧ (Route.extractVehicle (Route.pathOf [Route.w1])).map Prod.snd = [Route.w1])
    ∧ Route.extractGroup [[Route.w1], []]
        = Route.extractGroup ([[Route.w1], []].filter (fun r => !r.isEmpty)) :=
  ⟨(c5_sequence_numbers [[Route.w1], []]).1 [Route.w1] (List.mem_cons_self _ _),
    (c5_sequence_numbers [[Route.w1], []]).2⟩
